import Mathlib

/-!
Verification development for the Moodmate voice-to-mood pipeline.

The Python source is shallowly embedded: Python floats are modelled as
rationals (all comparisons and arithmetic used by the pipeline are exact on
the values that occur), Python ints as integers, JSON-like dynamic values as
the inductive type `PyVal`, and code that can raise an uncaught exception
returns `Except`/`Option`.
-/

unseal Rat.mul

namespace Moodmate

/-- Dynamic (JSON-like) Python value, as produced by `response.json()` and
consumed by `format_emotion_result`.  Dict keys are strings (JSON keys are
always strings).  Booleans do not occur in the pipeline and are not
modelled. -/
inductive PyVal where
  | vnone : PyVal
  | vint : ℤ → PyVal
  | vfloat : ℚ → PyVal
  | vstr : String → PyVal
  | vlist : List PyVal → PyVal
  | vdict : List (String × PyVal) → PyVal

mutual

/-- Decidable structural equality on modelled Python values (Python `==`
on the values the pipeline handles; cross-type numeric equality such as
`5 == 5.0`, which does not occur on the pipeline's label values, is not
modelled). -/
def pyValDecEq : (a b : PyVal) → Decidable (a = b)
  | .vnone, .vnone => isTrue rfl
  | .vnone, .vint _ => isFalse (fun h => PyVal.noConfusion h)
  | .vnone, .vfloat _ => isFalse (fun h => PyVal.noConfusion h)
  | .vnone, .vstr _ => isFalse (fun h => PyVal.noConfusion h)
  | .vnone, .vlist _ => isFalse (fun h => PyVal.noConfusion h)
  | .vnone, .vdict _ => isFalse (fun h => PyVal.noConfusion h)
  | .vint _, .vnone => isFalse (fun h => PyVal.noConfusion h)
  | .vint a, .vint b =>
    match decEq a b with
    | isTrue h => isTrue (by rw [h])
    | isFalse h => isFalse (fun hh => h (by injection hh))
  | .vint _, .vfloat _ => isFalse (fun h => PyVal.noConfusion h)
  | .vint _, .vstr _ => isFalse (fun h => PyVal.noConfusion h)
  | .vint _, .vlist _ => isFalse (fun h => PyVal.noConfusion h)
  | .vint _, .vdict _ => isFalse (fun h => PyVal.noConfusion h)
  | .vfloat _, .vnone => isFalse (fun h => PyVal.noConfusion h)
  | .vfloat _, .vint _ => isFalse (fun h => PyVal.noConfusion h)
  | .vfloat a, .vfloat b =>
    match decEq a b with
    | isTrue h => isTrue (by rw [h])
    | isFalse h => isFalse (fun hh => h (by injection hh))
  | .vfloat _, .vstr _ => isFalse (fun h => PyVal.noConfusion h)
  | .vfloat _, .vlist _ => isFalse (fun h => PyVal.noConfusion h)
  | .vfloat _, .vdict _ => isFalse (fun h => PyVal.noConfusion h)
  | .vstr _, .vnone => isFalse (fun h => PyVal.noConfusion h)
  | .vstr _, .vint _ => isFalse (fun h => PyVal.noConfusion h)
  | .vstr _, .vfloat _ => isFalse (fun h => PyVal.noConfusion h)
  | .vstr a, .vstr b =>
    match decEq a b with
    | isTrue h => isTrue (by rw [h])
    | isFalse h => isFalse (fun hh => h (by injection hh))
  | .vstr _, .vlist _ => isFalse (fun h => PyVal.noConfusion h)
  | .vstr _, .vdict _ => isFalse (fun h => PyVal.noConfusion h)
  | .vlist _, .vnone => isFalse (fun h => PyVal.noConfusion h)
  | .vlist _, .vint _ => isFalse (fun h => PyVal.noConfusion h)
  | .vlist _, .vfloat _ => isFalse (fun h => PyVal.noConfusion h)
  | .vlist _, .vstr _ => isFalse (fun h => PyVal.noConfusion h)
  | .vlist a, .vlist b =>
    match pyValListDecEq a b with
    | isTrue h => isTrue (by rw [h])
    | isFalse h => isFalse (fun hh => h (by injection hh))
  | .vlist _, .vdict _ => isFalse (fun h => PyVal.noConfusion h)
  | .vdict _, .vnone => isFalse (fun h => PyVal.noConfusion h)
  | .vdict _, .vint _ => isFalse (fun h => PyVal.noConfusion h)
  | .vdict _, .vfloat _ => isFalse (fun h => PyVal.noConfusion h)
  | .vdict _, .vstr _ => isFalse (fun h => PyVal.noConfusion h)
  | .vdict _, .vlist _ => isFalse (fun h => PyVal.noConfusion h)
  | .vdict a, .vdict b =>
    match pyValKVDecEq a b with
    | isTrue h => isTrue (by rw [h])
    | isFalse h => isFalse (fun hh => h (by injection hh))

/-- Decidable equality on lists of modelled values. -/
def pyValListDecEq : (a b : List PyVal) → Decidable (a = b)
  | [], [] => isTrue rfl
  | [], _ :: _ => isFalse (fun h => List.noConfusion h)
  | _ :: _, [] => isFalse (fun h => List.noConfusion h)
  | x :: xs, y :: ys =>
    match pyValDecEq x y, pyValListDecEq xs ys with
    | isTrue h1, isTrue h2 => isTrue (by rw [h1, h2])
    | isFalse h1, _ => isFalse (fun h => h1 (by injection h))
    | _, isFalse h2 => isFalse (fun h => h2 (by injection h))

/-- Decidable equality on key-value lists of modelled values. -/
def pyValKVDecEq : (a b : List (String × PyVal)) → Decidable (a = b)
  | [], [] => isTrue rfl
  | [], _ :: _ => isFalse (fun h => List.noConfusion h)
  | _ :: _, [] => isFalse (fun h => List.noConfusion h)
  | (k, v) :: xs, (k', v') :: ys =>
    match decEq k k', pyValDecEq v v', pyValKVDecEq xs ys with
    | isTrue h1, isTrue h2, isTrue h3 => isTrue (by rw [h1, h2, h3])
    | isFalse h1, _, _ => isFalse (fun h => by
        injection h with h4 h5
        exact h1 (congrArg Prod.fst h4))
    | _, isFalse h2, _ => isFalse (fun h => by
        injection h with h4 h5
        exact h2 (congrArg Prod.snd h4))
    | _, _, isFalse h3 => isFalse (fun h => by
        injection h with h4 h5
        exact h3 h5)

end

instance : DecidableEq PyVal := pyValDecEq

instance {ε α : Type} [DecidableEq ε] [DecidableEq α] : DecidableEq (Except ε α) := fun a b =>
  match a, b with
  | .ok x, .ok y =>
    match decEq x y with
    | isTrue h => isTrue (by rw [h])
    | isFalse h => isFalse (fun hh => h (by injection hh))
  | .error x, .error y =>
    match decEq x y with
    | isTrue h => isTrue (by rw [h])
    | isFalse h => isFalse (fun hh => h (by injection hh))
  | .ok _, .error _ => isFalse (fun h => Except.noConfusion h)
  | .error _, .ok _ => isFalse (fun h => Except.noConfusion h)

/-- Python `v is None`. -/
def isNone : PyVal → Bool
  | .vnone => true
  | _ => false

/-- Python truthiness (`bool(v)`) for the modelled values: `None`, `0`,
`0.0`, `""`, `[]`, and the empty dict are falsy. -/
def truthy : PyVal → Bool
  | .vnone => false
  | .vint n => n ≠ 0
  | .vfloat q => q ≠ 0
  | .vstr s => s ≠ ""
  | .vlist xs => !xs.isEmpty
  | .vdict kvs => !kvs.isEmpty

/-- Python `d.get(k)`: the stored value, or `None` when the key is absent. -/
def pyGet (kvs : List (String × PyVal)) (k : String) : PyVal :=
  match kvs.find? (fun kv => kv.1 = k) with
  | some kv => kv.2
  | none => PyVal.vnone

/-- Python `d.get(k, default)`. -/
def pyGetD (kvs : List (String × PyVal)) (k : String) (d : PyVal) : PyVal :=
  match kvs.find? (fun kv => kv.1 = k) with
  | some kv => kv.2
  | none => d

/-- Python `a or b`: `a` when truthy, otherwise `b` (the value of the last
operand, which may itself be falsy). -/
def pyOrV (a b : PyVal) : PyVal :=
  if truthy a then a else b

/-- Truncation toward zero, as performed by Python `int(float)` (for a
rational num/den in lowest terms, truncating division of num by den). -/
def intTrunc (q : ℚ) : ℤ :=
  q.num.tdiv (q.den : ℤ)

/-- Python `int(v)` where failure (`ValueError`/`TypeError`) is `none`.
Integers pass through, floats truncate toward zero, strings parse as a
decimal integer (Python additionally strips whitespace and underscores;
such strings do not occur in the pipeline and are not modelled); every
other value raises, i.e. yields `none`. -/
def pyInt : PyVal → Option ℤ
  | .vint n => some n
  | .vfloat q => some (intTrunc q)
  | .vstr s => s.toInt?
  | _ => none

/-- Python `isinstance(v, (int, float))` together with the numeric value:
`some` exactly for ints and floats. -/
def pyNum : PyVal → Option ℚ
  | .vint n => some (mkRat n 1)
  | .vfloat q => some q
  | _ => none

/-- Python `round(q)` on a float: round half to even (banker's rounding),
returning an int.  `r2` is twice the fractional part scaled by the
denominator, so `r2 < den` means the fraction is below one half. -/
def roundHalfEven (q : ℚ) : ℤ :=
  let f := q.floor
  let r2 := q.num * 2 - f * 2 * (q.den : ℤ)
  if r2 < (q.den : ℤ) then f
  else if (q.den : ℤ) < r2 then f + 1
  else if f % 2 = 0 then f else f + 1

/-- Python `max(lo, min(hi, n))`, the clamp used throughout the pipeline. -/
def clampInt (lo hi n : ℤ) : ℤ :=
  max lo (min hi n)

/-- Source `_convert_emotion_level_to_mood_level` from
`app/services/emotion_detection.py`: compress the 1..10 emotion scale into
the 1..5 mood scale by fixed bucketing. -/
def convert_emotion_level_to_mood_level (emotion_level : ℤ) : ℤ :=
  if emotion_level ≤ 2 then 1
  else if emotion_level ≤ 4 then 2
  else if emotion_level ≤ 6 then 3
  else if emotion_level ≤ 8 then 4
  else 5

/-- The standardized dict returned by `format_emotion_result`.  Fields keep
the dynamic `PyVal` type because the pass-through branch of the source
returns raw values unconverted. -/
structure EmotionResult where
  emotion : PyVal
  emotion_level : PyVal
  emotions : PyVal
  mood_level : PyVal
  confidence : PyVal
  tags : PyVal
  raw_result : PyVal
deriving DecidableEq

/-- Stable insertion of one labelled probability into a list sorted by
descending probability: the element goes before the first entry whose
probability is not larger, so equal probabilities keep input order,
matching Python's stable `sorted(..., key=lambda x: x[1], reverse=True)`. -/
def insertByProbDesc (x : PyVal × ℚ) : List (PyVal × ℚ) → List (PyVal × ℚ)
  | [] => [x]
  | y :: ys => if y.2 ≤ x.2 then x :: y :: ys else y :: insertByProbDesc x ys

/-- Stable sort by descending probability (insertion sort). -/
def sortProbsDesc : List (PyVal × ℚ) → List (PyVal × ℚ)
  | [] => []
  | x :: xs => insertByProbDesc x (sortProbsDesc xs)

/-- Source `_format_probability_based_result`: normalize a label→probability
mapping (given as an association list in insertion order). -/
def format_probability_based_result (emotion_probs : List (PyVal × ℚ))
    (raw : PyVal) : EmotionResult :=
  if emotion_probs.isEmpty then
    { emotion := .vstr "neutral", emotion_level := .vint 5, emotions := .vlist [],
      mood_level := .vint 3, confidence := .vfloat (mkRat 0 1), tags := .vlist [],
      raw_result := raw }
  else
    let sorted_emotions := sortProbsDesc emotion_probs
    let top_emotion := match sorted_emotions with
      | [] => PyVal.vstr "neutral"
      | e :: _ => e.1
    let highest_prob : ℚ := match sorted_emotions with
      | [] => mkRat 0 1
      | e :: _ => e.2
    let emotion_level := clampInt 1 10 (roundHalfEven (highest_prob * mkRat 10 1))
    let mood_level := convert_emotion_level_to_mood_level emotion_level
    let above := (sorted_emotions.filter (fun e => mkRat 1 10 ≤ e.2)).map Prod.fst
    let top_emotions := if above.isEmpty
      then (sorted_emotions.take 3).map Prod.fst
      else above
    { emotion := top_emotion, emotion_level := .vint emotion_level,
      emotions := .vlist top_emotions, mood_level := .vint mood_level,
      confidence := .vfloat highest_prob, tags := .vlist top_emotions,
      raw_result := raw }

/-- Values of a dict, converted to probabilities when every value is an int
or a float (the source's `all(isinstance(k, str) and isinstance(v, (int,
float)) ...)` check); `none` when some value is non-numeric.  Keys become
string labels. -/
def dictNumProbs : List (String × PyVal) → Option (List (PyVal × ℚ))
  | [] => some []
  | (k, v) :: rest =>
    match pyNum v, dictNumProbs rest with
    | some q, some r => some ((PyVal.vstr k, q) :: r)
    | _, _ => none

/-- Python dict assignment `d[k] = v`: overwrite in place when the key
exists (keeping its position), otherwise append. -/
def dictAssign (k : PyVal) (v : ℚ) : List (PyVal × ℚ) → List (PyVal × ℚ)
  | [] => [(k, v)]
  | (k', v') :: rest =>
    if k' = k then (k, v) :: rest else (k', v') :: dictAssign k v rest

/-- The accumulation loop of the source's list branch: for each dict item
take the first truthy of `emotion`/`title`/`name` and of
`probability`/`prob`/`score`; skip the item unless the label is truthy and
the probability is not `None`; `float(prob)` on a non-numeric value raises
(`none`; numeric strings, which Python would convert, do not occur in the
pipeline and are not modelled). -/
def buildScoredProbs (acc : List (PyVal × ℚ)) :
    List PyVal → Option (List (PyVal × ℚ))
  | [] => some acc
  | item :: rest =>
    match item with
    | .vdict d =>
      let emotion := pyOrV (pyGet d "emotion") (pyOrV (pyGet d "title") (pyGet d "name"))
      let prob := pyOrV (pyGet d "probability") (pyOrV (pyGet d "prob") (pyGet d "score"))
      if truthy emotion && !isNone prob then
        match pyNum prob with
        | some q => buildScoredProbs (dictAssign emotion q acc) rest
        | none => none
      else buildScoredProbs acc rest
    | _ => buildScoredProbs acc rest

/-- The source's default fallback result ("Default fallback if format is
not recognized"): note `confidence` is `0.5`. -/
def defaultFallback (raw : PyVal) : EmotionResult :=
  { emotion := .vstr "neutral", emotion_level := .vint 5,
    emotions := .vlist [.vstr "neutral"], mood_level := .vint 3,
    confidence := .vfloat (mkRat 1 2), tags := .vlist [.vstr "neutral"],
    raw_result := raw }

/-- Source `format_emotion_result`: dispatch on the raw classifier output's
shape.  `Except.error` models an uncaught Python exception (the nested
probability branches raise on non-numeric probabilities); the
`int(emotion_level)` failure in the first branch is caught by the source
and falls through. -/
def format_emotion_result (raw_result : PyVal) : Except Unit EmotionResult :=
  match raw_result with
  | .vdict kvs =>
    let emotion := pyOrV (pyGet kvs "emotion")
      (pyOrV (pyGet kvs "emotion_title") (pyGet kvs "title"))
    let elevel := pyOrV (pyGet kvs "emotion_level")
      (pyOrV (pyGet kvs "level") (pyGet kvs "emotionLevel"))
    let newFormat : Option EmotionResult :=
      if truthy emotion && !isNone elevel then
        match pyInt elevel with
        | some n =>
          let emotion_level := clampInt 1 10 n
          let mood_level := convert_emotion_level_to_mood_level emotion_level
          let confidence : ℚ := mkRat emotion_level 10
          some { emotion := emotion, emotion_level := .vint emotion_level,
                 emotions := .vlist [emotion], mood_level := .vint mood_level,
                 confidence := .vfloat confidence, tags := .vlist [emotion],
                 raw_result := raw_result }
        | none => none
      else none
    match newFormat with
    | some r => .ok r
    | none =>
      match pyGet kvs "emotions" with
      | .vdict nested =>
        match dictNumProbs nested with
        | some probs => .ok (format_probability_based_result probs raw_result)
        | none => .error ()
      | _ =>
        match dictNumProbs kvs with
        | some probs => .ok (format_probability_based_result probs raw_result)
        | none =>
          match pyGet kvs "emotions" with
          | .vlist l =>
            .ok { emotion := pyGetD kvs "emotion" (.vstr ""),
                  emotion_level := pyGetD kvs "emotion_level" (.vint 5),
                  emotions := .vlist l,
                  mood_level := pyGetD kvs "mood_level" (.vint 3),
                  confidence := pyGetD kvs "confidence" (.vfloat (mkRat 0 1)),
                  tags := pyGetD kvs "tags" (.vlist []),
                  raw_result := raw_result }
          | _ => .ok (defaultFallback raw_result)
  | .vlist items =>
    match buildScoredProbs [] items with
    | none => .error ()
    | some probs =>
      if probs.isEmpty then .ok (defaultFallback raw_result)
      else .ok (format_probability_based_result probs raw_result)
  | _ => .ok (defaultFallback raw_result)

/-! Route models, from `app/routes/voice.py`. -/

/-- Drop leading whitespace characters. -/
def dropLeadingWs : List Char → List Char
  | [] => []
  | c :: cs => if c.isWhitespace then dropLeadingWs cs else c :: cs

/-- Python `s.strip()`: remove leading and trailing whitespace. -/
def pyStrip (s : String) : String :=
  String.mk ((dropLeadingWs ((dropLeadingWs s.data).reverse)).reverse)

/-- Splitting loop for `s.split(',')`; `cur` holds the current field's
characters in reverse. -/
def splitCommaChars (cur : List Char) : List Char → List String
  | [] => [String.mk cur.reverse]
  | c :: cs =>
    if c = ',' then String.mk cur.reverse :: splitCommaChars [] cs
    else splitCommaChars (c :: cur) cs

/-- Python `s.split(',')`. -/
def pySplitComma (s : String) : List String :=
  splitCommaChars [] s.data

/-- Allowed audio file extensions (voice.py). -/
def ALLOWED_EXTENSIONS : List String :=
  [".mp3", ".wav", ".m4a", ".ogg", ".flac", ".webm", ".mp4"]

/-- 25 MB upper size cap (voice.py, OpenAI Whisper limit). -/
def MAX_FILE_SIZE : ℕ := 25 * 1024 * 1024

/-- The errors the voice endpoints can produce.  400-level rejections and
500-level failures of `HTTPException`, plus the uncaught `TypeError` that
FastAPI would turn into a 500. -/
inductive VoiceError where
  | unsupportedFormat
  | audioTooSmall
  | audioEmpty
  | fileTooLarge
  | emptyTranscription
  | transcriptionFailed
  | emotionDetectionFailed
  | invalidDate
  | uncaughtTypeError
deriving DecidableEq

/-- HTTP status carried by each modelled error. -/
def voiceErrorStatus : VoiceError → ℕ
  | .unsupportedFormat => 400
  | .audioTooSmall => 400
  | .audioEmpty => 400
  | .fileTooLarge => 400
  | .emptyTranscription => 400
  | .invalidDate => 400
  | _ => 500

/-- Input of the `/voice/transcribe` endpoint, with I/O stage outcomes as
data: `file_extension` is `os.path.splitext(filename)[1].lower()` on the
(possibly defaulted) filename (path parsing abstracted), `transcription`
the outcome of `transcribe_audio`, `emotionOutcome` the raw classifier
output of `detect_emotions_from_text`'s HTTP call (`error` = the call
raised). -/
structure TranscribeRequest where
  file_extension : String
  contentLen : ℕ
  language : Option String
  transcription : Except String String
  emotionOutcome : Except Unit PyVal

/-- Response schema of `/voice/transcribe` (`TranscriptionResponse`). -/
structure TranscribeResponse where
  success : Bool
  transcribed_text : String
  language : Option String
  emotion : PyVal
  emotion_level : Option ℤ
  message : String
deriving DecidableEq

/-- The emotion-extraction block of `transcribe_voice` (its inner
`try`/`except`): any failure inside — the classifier call raising,
`format_emotion_result` raising, or `int(emotion_level)` raising — resets
both fields to `None`; a `None` `emotion_level` skips the clamp. -/
def transcribeEmotionFields (outcome : Except Unit PyVal) : PyVal × Option ℤ :=
  match outcome with
  | .error _ => (.vnone, none)
  | .ok raw =>
    match format_emotion_result raw with
    | .error _ => (.vnone, none)
    | .ok fr =>
      if isNone fr.emotion_level then (fr.emotion, none)
      else
        match pyInt fr.emotion_level with
        | some n => (fr.emotion, some (clampInt 1 10 n))
        | none => (.vnone, none)

/-- Source `transcribe_voice` (voice.py lines 40-166): extension check,
size floor (< 1000 bytes), dead zero-byte check, 25 MB cap, transcription,
empty-text rejection, then emotion extraction that never fails the
request. -/
def transcribe_voice (req : TranscribeRequest) : Except VoiceError TranscribeResponse :=
  let file_extension := if req.file_extension = "" then ".m4a" else req.file_extension
  if file_extension ∉ ALLOWED_EXTENSIONS then .error .unsupportedFormat
  else if req.contentLen < 1000 then .error .audioTooSmall
  else if req.contentLen = 0 then .error .audioEmpty
  else if MAX_FILE_SIZE < req.contentLen then .error .fileTooLarge
  else
    match req.transcription with
    | .error _ => .error .transcriptionFailed
    | .ok transcribed_text =>
      if pyStrip transcribed_text = "" then .error .emptyTranscription
      else
        let ef := transcribeEmotionFields req.emotionOutcome
        .ok { success := true, transcribed_text := transcribed_text,
              language := req.language, emotion := ef.1, emotion_level := ef.2,
              message := if truthy ef.1 then
                  "Transcription and emotion analysis completed successfully"
                else "Transcription completed successfully" }

/-! Mood persistence, from `app/models/mood.py` and the save step of
`analyze_voice`. -/

/-- A row of the `moods` table.  The route never sets `emoji`/`emotion`. -/
structure Mood where
  id : ℕ
  user_id : String
  date : String
  mood_level : ℤ
  emoji : Option String
  emotion : Option String
  tags : Option String
  notes : Option String
deriving DecidableEq

/-- The (user_id, date) key filter of the route's query. -/
def moodKeyMatch (uid d : String) (m : Mood) : Bool :=
  m.user_id = uid && m.date = d

/-- Mutate the first (user_id, date) match in place, overwriting
mood_level, tags and notes — the update arm of the route's save step. -/
def updateFirstMood (uid d : String) (ml : ℤ) (tg : Option String) (nt : String) :
    List Mood → List Mood
  | [] => []
  | m :: rest =>
    if moodKeyMatch uid d m then
      { m with mood_level := ml, tags := tg, notes := some nt } :: rest
    else m :: updateFirstMood uid d ml tg nt rest

/-- The route's create-or-update step (voice.py lines 285-330): query the
first record for (user_id, date); update it in place when found, else
insert a fresh record.  Returns the written record (after `db.refresh`)
and the new table contents. -/
def upsertMood (db : List Mood) (uid d : String) (ml : ℤ) (tg : Option String)
    (nt : String) (newId : ℕ) : Mood × List Mood :=
  match db.find? (moodKeyMatch uid d) with
  | some m => ({ m with mood_level := ml, tags := tg, notes := some nt },
               updateFirstMood uid d ml tg nt db)
  | none =>
    let m : Mood := { id := newId, user_id := uid, date := d, mood_level := ml,
                      emoji := none, emotion := none, tags := tg, notes := some nt }
    (m, db ++ [m])

/-- All elements are strings (what `",".join` requires; otherwise it
raises `TypeError`). -/
def allStrings : List PyVal → Option (List String)
  | [] => some []
  | .vstr s :: rest => (allStrings rest).map (fun ss => s :: ss)
  | _ => none

/-- The route's `",".join(tags) if tags else None`: `some none` when tags
is falsy, `some (some s)` when the join succeeds (joining a string joins
its characters), `none` when the join raises. -/
def joinTagsPy (v : PyVal) : Option (Option String) :=
  if truthy v then
    match v with
    | .vlist l => (allStrings l).map (fun ss => some (String.intercalate "," ss))
    | .vstr s => some (some (String.intercalate "," (s.data.map (fun c => String.mk [c]))))
    | _ => none
  else some none

/-- The route's `[tag.strip() for tag in m.tags.split(',')] if m.tags else []`. -/
def splitTagsCsv : Option String → List String
  | none => []
  | some s => if s = "" then [] else (pySplitComma s).map pyStrip

/-- The mood-entry dict the route builds from the written record. -/
structure MoodEntryOut where
  id : ℕ
  userId : String
  date : String
  moodLevel : ℤ
  tags : List String
  notes : Option String
deriving DecidableEq

/-- Conversion of a written record to the response's mood-entry dict. -/
def moodEntryOut (m : Mood) : MoodEntryOut :=
  { id := m.id, userId := m.user_id, date := m.date, moodLevel := m.mood_level,
    tags := splitTagsCsv m.tags, notes := m.notes }

/-- Input of the `/voice/analyze` endpoint; fields as in
`TranscribeRequest`, plus the mood-save form fields, the current table
contents, the authenticated user, today's date, and the id the database
would assign to a fresh row. -/
structure AnalyzeRequest where
  file_extension : String
  contentLen : ℕ
  save_to_mood : Bool
  mood_date : Option String
  user_id : String
  today : String
  transcription : Except String String
  emotionOutcome : Except Unit PyVal
  db : List Mood
  nextId : ℕ

/-- Response schema of `/voice/analyze` (`VoiceAnalysisResponse`). -/
structure AnalyzeResponse where
  success : Bool
  transcribed_text : String
  emotion : PyVal
  emotion_level : ℤ
  emotions : PyVal
  mood_level : ℤ
  confidence : PyVal
  tags : PyVal
  mood_entry : Option MoodEntryOut
  message : String
deriving DecidableEq

/-- Source `analyze_voice` (voice.py lines 177-348).  `parseDate`
abstracts `date.fromisoformat` (`none` = `ValueError`).  Note, from the
source: there is no minimum-size check; an empty transcription raises an
`HTTPException(400)` inside a `try` whose broad `except Exception` wraps
it into the 500 transcription-failure error; a classifier failure raises
the 500 emotion-detection error; `emotion_level`/`mood_level` are
re-clamped at the boundary while `confidence` is passed through; a
`",".join` failure in the save step is swallowed (`mood_entry = None`).
Returns the response together with the table contents after the request. -/
def analyze_voice (parseDate : String → Option String) (req : AnalyzeRequest) :
    Except VoiceError (AnalyzeResponse × List Mood) :=
  if req.file_extension ∉ ALLOWED_EXTENSIONS then .error .unsupportedFormat
  else if MAX_FILE_SIZE < req.contentLen then .error .fileTooLarge
  else
    match req.transcription with
    | .error _ => .error .transcriptionFailed
    | .ok transcribed_text =>
      if pyStrip transcribed_text = "" then .error .transcriptionFailed
      else
        match req.emotionOutcome with
        | .error _ => .error .emotionDetectionFailed
        | .ok raw =>
          match format_emotion_result raw with
          | .error _ => .error .emotionDetectionFailed
          | .ok er =>
            match pyInt er.emotion_level, pyInt er.mood_level with
            | some el, some ml =>
              let emotion_level := clampInt 1 10 el
              let mood_level := clampInt 1 5 ml
              let step : Except VoiceError (Option MoodEntryOut × List Mood) :=
                if req.save_to_mood then
                  match (match req.mood_date with
                         | none => some req.today
                         | some s => if s = "" then some req.today else parseDate s) with
                  | none => .error .invalidDate
                  | some entry_date =>
                    match joinTagsPy er.tags with
                    | none => .ok (none, req.db)
                    | some tg =>
                      let p := upsertMood req.db req.user_id entry_date mood_level
                        tg transcribed_text req.nextId
                      .ok (some (moodEntryOut p.1), p.2)
                else .ok (none, req.db)
              match step with
              | .error e => .error e
              | .ok (mood_entry, dbAfter) =>
                .ok ({ success := true, transcribed_text := transcribed_text,
                       emotion := er.emotion, emotion_level := emotion_level,
                       emotions := er.emotions, mood_level := mood_level,
                       confidence := er.confidence, tags := er.tags,
                       mood_entry := mood_entry,
                       message := if req.save_to_mood ∧ mood_entry.isSome then
                           "Voice analysis completed successfully and saved to mood entries"
                         else "Voice analysis completed successfully" }, dbAfter)
            | _, _ => .error .uncaughtTypeError

/-! The local-whisper model cache, from `app/services/speech_to_text.py`
lines 100-125, as a two-task interleaved transition system.  Each request
running `_transcribe_with_local_whisper` executes: (1) the `if
_cached_model is None` test, then — on `None` — (2) the awaited
`run_in_executor(whisper.load_model, ...)` whose completion assigns the
global.  The `await` between the test and the assignment is a suspension
point, so the other task can run in between; there is no lock in the
source. -/

/-- Program counter of one request's first-use path through the cache
code. -/
inductive WhisperPc where
  | beforeCheck
  | loading
  | finished
deriving DecidableEq

/-- Shared state: whether `_cached_model` is set, how many times
`whisper.load_model` ran, and each task's position. -/
structure WhisperState where
  cached : Bool
  loads : ℕ
  pc1 : WhisperPc
  pc2 : WhisperPc
deriving DecidableEq

/-- One scheduler step running task 1 (`true`) or task 2 (`false`). -/
def whisperStep (i : Bool) (s : WhisperState) : WhisperState :=
  match (if i then s.pc1 else s.pc2) with
  | .beforeCheck =>
    let pc := if s.cached then WhisperPc.finished else WhisperPc.loading
    if i then { s with pc1 := pc } else { s with pc2 := pc }
  | .loading =>
    let s' := { s with cached := true, loads := s.loads + 1 }
    if i then { s' with pc1 := .finished } else { s' with pc2 := .finished }
  | .finished => s

/-- Run a schedule (a list of task choices). -/
def whisperRun (sched : List Bool) (s : WhisperState) : WhisperState :=
  sched.foldl (fun st i => whisperStep i st) s

/-- Initial state: no model cached, no loads, both requests at the check. -/
def whisperInit : WhisperState :=
  { cached := false, loads := 0, pc1 := .beforeCheck, pc2 := .beforeCheck }

/-- Potential of one task: how many loads it can still perform. -/
def pcPotential : WhisperPc → ℕ
  | .finished => 0
  | _ => 1

/-! Supporting lemmas. -/

/-- Clamping lands in the interval. -/
lemma clampInt_bounds (lo hi n : ℤ) (h : lo ≤ hi) :
    lo ≤ clampInt lo hi n ∧ clampInt lo hi n ≤ hi := by
  unfold clampInt
  exact ⟨le_max_left lo _, max_le h (min_le_left hi n)⟩

/-- The mood mapper always lands in 1..5, on every integer input. -/
lemma convert_range (l : ℤ) :
    1 ≤ convert_emotion_level_to_mood_level l ∧ convert_emotion_level_to_mood_level l ≤ 5 := by
  unfold convert_emotion_level_to_mood_level
  split_ifs <;> omega

/-- The mood mapper is monotone. -/
lemma convert_monotone (a b : ℤ) (h : a < b) :
    convert_emotion_level_to_mood_level a ≤ convert_emotion_level_to_mood_level b := by
  unfold convert_emotion_level_to_mood_level
  split_ifs <;> omega

/-- Insertion never produces the empty list. -/
lemma insertByProbDesc_ne_nil (x : PyVal × ℚ) (l : List (PyVal × ℚ)) :
    insertByProbDesc x l ≠ [] := by
  cases l with
  | nil => simp [insertByProbDesc]
  | cons y ys =>
    unfold insertByProbDesc
    split_ifs <;> simp

/-- Members of an insertion come from the inserted element or the list. -/
lemma mem_insertByProbDesc {y x : PyVal × ℚ} {l : List (PyVal × ℚ)}
    (h : y ∈ insertByProbDesc x l) : y = x ∨ y ∈ l := by
  induction l with
  | nil =>
    simp [insertByProbDesc] at h
    exact Or.inl h
  | cons z zs ih =>
    unfold insertByProbDesc at h
    split_ifs at h with hc
    · rcases List.mem_cons.1 h with h1 | h2
      · exact Or.inl h1
      · exact Or.inr h2
    · rcases List.mem_cons.1 h with h1 | h2
      · exact Or.inr (h1 ▸ List.mem_cons_self _ _)
      · rcases ih h2 with h3 | h4
        · exact Or.inl h3
        · exact Or.inr (List.mem_cons_of_mem _ h4)

/-- Members of the sorted list come from the input. -/
lemma mem_sortProbsDesc {y : PyVal × ℚ} {l : List (PyVal × ℚ)}
    (h : y ∈ sortProbsDesc l) : y ∈ l := by
  induction l with
  | nil => simpa [sortProbsDesc] using h
  | cons x xs ih =>
    unfold sortProbsDesc at h
    rcases mem_insertByProbDesc h with h1 | h2
    · exact h1 ▸ List.mem_cons_self _ _
    · exact List.mem_cons_of_mem _ (ih h2)

/-- Insertion preserves descending order. -/
lemma sorted_insertByProbDesc {x : PyVal × ℚ} {l : List (PyVal × ℚ)}
    (h : List.Sorted (fun a b : PyVal × ℚ => b.2 ≤ a.2) l) :
    List.Sorted (fun a b : PyVal × ℚ => b.2 ≤ a.2) (insertByProbDesc x l) := by
  induction l with
  | nil => simp [insertByProbDesc]
  | cons y ys ih =>
    rcases List.sorted_cons.1 h with ⟨hy, hys⟩
    unfold insertByProbDesc
    split_ifs with hc
    · refine List.sorted_cons.2 ⟨?_, h⟩
      intro b hb
      rcases List.mem_cons.1 hb with rfl | hb'
      · exact hc
      · exact le_trans (hy b hb') hc
    · push_neg at hc
      refine List.sorted_cons.2 ⟨?_, ih hys⟩
      intro b hb
      rcases mem_insertByProbDesc hb with rfl | hb'
      · exact le_of_lt hc
      · exact hy b hb'

/-- The sort produces a list in descending probability order. -/
lemma sorted_sortProbsDesc (l : List (PyVal × ℚ)) :
    List.Sorted (fun a b : PyVal × ℚ => b.2 ≤ a.2) (sortProbsDesc l) := by
  induction l with
  | nil => simp [sortProbsDesc]
  | cons x xs ih => exact sorted_insertByProbDesc ih

/-- Sorting a non-empty list yields a cons. -/
lemma sortProbsDesc_cons_exists {l : List (PyVal × ℚ)} (h : l ≠ []) :
    ∃ e rest, sortProbsDesc l = e :: rest := by
  cases l with
  | nil => exact absurd rfl h
  | cons x xs =>
    unfold sortProbsDesc
    cases hi : insertByProbDesc x (sortProbsDesc xs) with
    | nil => exact absurd hi (insertByProbDesc_ne_nil x _)
    | cons e rest => exact ⟨e, rest, rfl⟩

/-- The probability normalizer always emits an emotion level in 1..10. -/
lemma fpbr_emotion_level_bounds (probs : List (PyVal × ℚ)) (raw : PyVal) :
    ∃ n : ℤ, (format_probability_based_result probs raw).emotion_level = .vint n ∧
      1 ≤ n ∧ n ≤ 10 := by
  unfold format_probability_based_result
  split_ifs with h
  · exact ⟨5, rfl, by norm_num⟩
  · exact ⟨_, rfl, clampInt_bounds 1 10 _ (by norm_num)⟩

/-- When all input probabilities lie in [0,1], the probability normalizer's
confidence does too (it is the top probability, or 0 on empty input). -/
lemma fpbr_confidence_bounds (probs : List (PyVal × ℚ)) (raw : PyVal)
    (h : ∀ p ∈ probs, 0 ≤ p.2 ∧ p.2 ≤ 1) :
    ∃ q : ℚ, (format_probability_based_result probs raw).confidence = .vfloat q ∧
      0 ≤ q ∧ q ≤ 1 := by
  unfold format_probability_based_result
  split_ifs with he
  · exact ⟨mkRat 0 1, rfl, by decide⟩
  · have hne : probs ≠ [] := fun hh => he (by simp [hh])
    obtain ⟨e, rest, hs⟩ := sortProbsDesc_cons_exists hne
    have hmem : e ∈ probs := mem_sortProbsDesc (hs ▸ List.mem_cons_self e rest)
    refine ⟨e.2, ?_, (h e hmem).1, (h e hmem).2⟩
    simp only [hs]

/-- A clamped level divided by ten lies in [0,1]. -/
lemma mkRat_div_ten_bounds (m : ℤ) (h1 : 1 ≤ m) (h2 : m ≤ 10) :
    0 ≤ mkRat m 10 ∧ mkRat m 10 ≤ 1 := by
  rw [Rat.mkRat_eq_divInt, Rat.divInt_eq_div]
  constructor
  · apply div_nonneg
    · exact_mod_cast le_trans (by norm_num) h1
    · norm_num
  · rw [div_le_one (by norm_num)]
    exact_mod_cast h2

/-- When the label/level or-chains fail and the dict's values are all
numeric, the formatter dispatches to the probability normalizer. -/
lemma format_prob_map_branch (kvs : List (String × PyVal)) (probs : List (PyVal × ℚ))
    (h1 : truthy (pyOrV (pyGet kvs "emotion")
      (pyOrV (pyGet kvs "emotion_title") (pyGet kvs "title"))) = false)
    (h2 : pyGet kvs "emotions" = .vnone)
    (h3 : dictNumProbs kvs = some probs) :
    format_emotion_result (.vdict kvs) =
      .ok (format_probability_based_result probs (.vdict kvs)) := by
  unfold format_emotion_result
  simp only [h1, h2, h3, Bool.false_and, if_false]
  simp

/-- When the label and level or-chains both produce usable values, the
formatter dispatches to the LeveledLabel branch: the level is clamped into
1..10 and the confidence is the clamped level over ten. -/
lemma format_leveled_branch (kvs : List (String × PyVal)) (n : ℤ)
    (he : truthy (pyOrV (pyGet kvs "emotion")
      (pyOrV (pyGet kvs "emotion_title") (pyGet kvs "title"))) = true)
    (hn : isNone (pyOrV (pyGet kvs "emotion_level")
      (pyOrV (pyGet kvs "level") (pyGet kvs "emotionLevel"))) = false)
    (hi : pyInt (pyOrV (pyGet kvs "emotion_level")
      (pyOrV (pyGet kvs "level") (pyGet kvs "emotionLevel"))) = some n) :
    format_emotion_result (.vdict kvs) = .ok
      { emotion := pyOrV (pyGet kvs "emotion")
          (pyOrV (pyGet kvs "emotion_title") (pyGet kvs "title")),
        emotion_level := .vint (clampInt 1 10 n),
        emotions := .vlist [pyOrV (pyGet kvs "emotion")
          (pyOrV (pyGet kvs "emotion_title") (pyGet kvs "title"))],
        mood_level := .vint (convert_emotion_level_to_mood_level (clampInt 1 10 n)),
        confidence := .vfloat (mkRat (clampInt 1 10 n) 10),
        tags := .vlist [pyOrV (pyGet kvs "emotion")
          (pyOrV (pyGet kvs "emotion_title") (pyGet kvs "title"))],
        raw_result := .vdict kvs } := by
  unfold format_emotion_result
  simp only [he, hn, hi, Bool.not_false, Bool.and_self, if_true]

/-- Numeric-dict conversion preserves probability bounds. -/
lemma dictNumProbs_bounds (kvs : List (String × PyVal)) (probs : List (PyVal × ℚ))
    (h : dictNumProbs kvs = some probs)
    (hb : ∀ kv ∈ kvs, ∃ q : ℚ, pyNum kv.2 = some q ∧ 0 ≤ q ∧ q ≤ 1) :
    ∀ p ∈ probs, 0 ≤ p.2 ∧ p.2 ≤ 1 := by
  induction kvs generalizing probs with
  | nil =>
    unfold dictNumProbs at h
    cases h
    intro p hp
    exact absurd hp (List.not_mem_nil p)
  | cons kv rest ih =>
    unfold dictNumProbs at h
    obtain ⟨q0, hq0, hq1, hq2⟩ := hb kv (List.mem_cons_self kv rest)
    rw [hq0] at h
    cases hrec : dictNumProbs rest with
    | none => rw [hrec] at h; cases h
    | some r =>
      rw [hrec] at h
      cases kv with
      | mk k v =>
        injection h with h'
        intro p hp
        rw [← h'] at hp
        rcases List.mem_cons.1 hp with rfl | hp2
        · exact ⟨hq1, hq2⟩
        · exact ih r hrec (fun kv2 hkv2 => hb kv2 (List.mem_cons_of_mem _ hkv2)) p hp2

/-- Updating the first key match keeps the table's length. -/
lemma updateFirstMood_length (uid d : String) (ml : ℤ) (tg : Option String)
    (nt : String) (l : List Mood) :
    (updateFirstMood uid d ml tg nt l).length = l.length := by
  induction l with
  | nil => rfl
  | cons m rest ih =>
    unfold updateFirstMood
    split_ifs <;> simp [ih]

/-- Updating the first key match keeps the number of key matches. -/
lemma filter_updateFirstMood (uid d : String) (ml : ℤ) (tg : Option String)
    (nt : String) (l : List Mood) :
    ((updateFirstMood uid d ml tg nt l).filter (moodKeyMatch uid d)).length =
      (l.filter (moodKeyMatch uid d)).length := by
  induction l with
  | nil => rfl
  | cons m rest ih =>
    unfold updateFirstMood
    split_ifs with hm
    · have hm2 : moodKeyMatch uid d
        { m with mood_level := ml, tags := tg, notes := some nt } = true := hm
      simp [List.filter_cons, hm, hm2]
    · simp [List.filter_cons, hm, ih]

/-- With at most one key match in the table, every key match after the
update carries the written values. -/
lemma matches_updateFirstMood (uid d : String) (ml : ℤ) (tg : Option String)
    (nt : String) (l : List Mood)
    (hc : (l.filter (moodKeyMatch uid d)).length ≤ 1) :
    ∀ m ∈ updateFirstMood uid d ml tg nt l, moodKeyMatch uid d m = true →
      m.mood_level = ml ∧ m.tags = tg ∧ m.notes = some nt := by
  induction l with
  | nil => intro m hm; exact absurd hm (List.not_mem_nil m)
  | cons m0 rest ih =>
    unfold updateFirstMood
    split_ifs with hm0
    · intro m hm hkey
      rcases List.mem_cons.1 hm with rfl | hm2
      · exact ⟨rfl, rfl, rfl⟩
      · exfalso
        have h1 : (List.filter (moodKeyMatch uid d) (m0 :: rest)).length =
            (List.filter (moodKeyMatch uid d) rest).length + 1 := by
          simp [List.filter_cons, hm0]
        have h2 : m ∈ rest.filter (moodKeyMatch uid d) := List.mem_filter.2 ⟨hm2, hkey⟩
        have h3 : 0 < (rest.filter (moodKeyMatch uid d)).length :=
          List.length_pos.2 (fun he => by rw [he] at h2; exact List.not_mem_nil m h2)
        omega
    · intro m hm hkey
      rcases List.mem_cons.1 hm with rfl | hm2
      · exact absurd hkey (by simp [hm0])
      · have hc2 : (rest.filter (moodKeyMatch uid d)).length ≤ 1 := by
          have : (List.filter (moodKeyMatch uid d) (m0 :: rest)).length =
              (List.filter (moodKeyMatch uid d) rest).length := by
            simp [List.filter_cons, hm0]
          omega
        exact ih hc2 m hm2 hkey

/-- After an upsert into a table with at most one key match, the table
holds exactly one record for the key. -/
lemma upsertMood_count_one (db : List Mood) (uid d : String) (ml : ℤ)
    (tg : Option String) (nt : String) (nid : ℕ)
    (hc : (db.filter (moodKeyMatch uid d)).length ≤ 1) :
    (((upsertMood db uid d ml tg nt nid).2).filter (moodKeyMatch uid d)).length = 1 := by
  unfold upsertMood
  cases hf : db.find? (moodKeyMatch uid d) with
  | none =>
    have hall : ∀ x ∈ db, ¬ moodKeyMatch uid d x = true := List.find?_eq_none.1 hf
    have hnil : db.filter (moodKeyMatch uid d) = [] := by
      rw [List.filter_eq_nil_iff]
      intro a ha
      exact hall a ha
    have hnew : moodKeyMatch uid d
        { id := nid, user_id := uid, date := d, mood_level := ml,
          emoji := none, emotion := none, tags := tg, notes := some nt } = true := by
      simp [moodKeyMatch]
    simp [List.filter_append, hnil, List.filter_cons, hnew]
  | some m =>
    have hkey : moodKeyMatch uid d m = true := List.find?_some hf
    have hmem : m ∈ db := List.mem_of_find?_eq_some hf
    have h2 : m ∈ db.filter (moodKeyMatch uid d) := List.mem_filter.2 ⟨hmem, hkey⟩
    have h3 : 0 < (db.filter (moodKeyMatch uid d)).length :=
      List.length_pos.2 (fun he => by rw [he] at h2; exact List.not_mem_nil m h2)
    have h4 : (db.filter (moodKeyMatch uid d)).length = 1 := by omega
    simp only []
    rw [filter_updateFirstMood]
    exact h4

/-- After an upsert into a table with at most one key match, every record
for the key carries the written values. -/
lemma upsertMood_matches_values (db : List Mood) (uid d : String) (ml : ℤ)
    (tg : Option String) (nt : String) (nid : ℕ)
    (hc : (db.filter (moodKeyMatch uid d)).length ≤ 1) :
    ∀ m ∈ (upsertMood db uid d ml tg nt nid).2, moodKeyMatch uid d m = true →
      m.mood_level = ml ∧ m.tags = tg ∧ m.notes = some nt := by
  unfold upsertMood
  cases hf : db.find? (moodKeyMatch uid d) with
  | none =>
    have hall : ∀ x ∈ db, ¬ moodKeyMatch uid d x = true := List.find?_eq_none.1 hf
    intro m hm hkey
    rcases List.mem_append.1 hm with hm1 | hm2
    · exact absurd hkey (hall m hm1)
    · rcases List.mem_cons.1 hm2 with rfl | hm3
      · exact ⟨rfl, rfl, rfl⟩
      · exact absurd hm3 (List.not_mem_nil m)
  | some m0 =>
    exact matches_updateFirstMood uid d ml tg nt db hc

/-- An upsert with no existing key match appends one record. -/
lemma upsertMood_length_new (db : List Mood) (uid d : String) (ml : ℤ)
    (tg : Option String) (nt : String) (nid : ℕ)
    (hz : (db.filter (moodKeyMatch uid d)).length = 0) :
    ((upsertMood db uid d ml tg nt nid).2).length = db.length + 1 := by
  unfold upsertMood
  cases hf : db.find? (moodKeyMatch uid d) with
  | none => simp
  | some m =>
    exfalso
    have hkey : moodKeyMatch uid d m = true := List.find?_some hf
    have hmem : m ∈ db := List.mem_of_find?_eq_some hf
    have h2 : m ∈ db.filter (moodKeyMatch uid d) := List.mem_filter.2 ⟨hmem, hkey⟩
    have h3 : 0 < (db.filter (moodKeyMatch uid d)).length :=
      List.length_pos.2 (fun he => by rw [he] at h2; exact List.not_mem_nil m h2)
    omega

/-- An upsert with an existing key match keeps the table's length: the
record is overwritten in place, no second record appears. -/
lemma upsertMood_length_existing (db : List Mood) (uid d : String) (ml : ℤ)
    (tg : Option String) (nt : String) (nid : ℕ)
    (h1 : 1 ≤ (db.filter (moodKeyMatch uid d)).length) :
    ((upsertMood db uid d ml tg nt nid).2).length = db.length := by
  unfold upsertMood
  cases hf : db.find? (moodKeyMatch uid d) with
  | none =>
    exfalso
    have hall : ∀ x ∈ db, ¬ moodKeyMatch uid d x = true := List.find?_eq_none.1 hf
    have hnil : db.filter (moodKeyMatch uid d) = [] := by
      rw [List.filter_eq_nil_iff]; intro a ha; exact hall a ha
    rw [hnil] at h1
    simp at h1
  | some m =>
    simp only []
    exact updateFirstMood_length uid d ml tg nt db

/-- Each scheduler step can only lower the combined load potential. -/
lemma whisperStep_potential (i : Bool) (s : WhisperState) :
    (whisperStep i s).loads + pcPotential (whisperStep i s).pc1 +
      pcPotential (whisperStep i s).pc2 ≤
      s.loads + pcPotential s.pc1 + pcPotential s.pc2 := by
  unfold whisperStep
  cases i <;> cases h1 : s.pc1 <;> cases h2 : s.pc2 <;> cases hc : s.cached <;>
    simp [pcPotential, h1, h2, hc]

/-- Unfolding one scheduler step of a run. -/
lemma whisperRun_cons (i : Bool) (rest : List Bool) (s : WhisperState) :
    whisperRun (i :: rest) s = whisperRun rest (whisperStep i s) := rfl

/-- A run can only lower the combined load potential. -/
lemma whisperRun_potential (sched : List Bool) (s : WhisperState) :
    (whisperRun sched s).loads + pcPotential (whisperRun sched s).pc1 +
      pcPotential (whisperRun sched s).pc2 ≤
      s.loads + pcPotential s.pc1 + pcPotential s.pc2 := by
  induction sched generalizing s with
  | nil => exact le_refl _
  | cons i rest ih =>
    rw [whisperRun_cons]
    exact le_trans (ih (whisperStep i s)) (whisperStep_potential i s)

/-- One step from a cached state with no task mid-load performs no load
and keeps the cache. -/
lemma whisperStep_cached_stable (i : Bool) (s : WhisperState)
    (hc : s.cached = true) (h1 : s.pc1 ≠ .loading) (h2 : s.pc2 ≠ .loading) :
    (whisperStep i s).loads = s.loads ∧ (whisperStep i s).cached = true ∧
      (whisperStep i s).pc1 ≠ .loading ∧ (whisperStep i s).pc2 ≠ .loading := by
  unfold whisperStep
  cases i <;> cases hp1 : s.pc1 <;> cases hp2 : s.pc2 <;>
    simp_all [hp1, hp2, hc]

/-- Any run from a cached state with no task mid-load performs no load. -/
lemma whisperRun_cached_stable (sched : List Bool) (s : WhisperState)
    (hc : s.cached = true) (h1 : s.pc1 ≠ .loading) (h2 : s.pc2 ≠ .loading) :
    (whisperRun sched s).loads = s.loads ∧ (whisperRun sched s).cached = true := by
  induction sched generalizing s with
  | nil => exact ⟨rfl, hc⟩
  | cons i rest ih =>
    rw [whisperRun_cons]
    obtain ⟨ha, hb, hcc, hd⟩ := whisperStep_cached_stable i s hc h1 h2
    obtain ⟨he, hf⟩ := ih (whisperStep i s) hb hcc hd
    exact ⟨by rw [he, ha], hf⟩

/-! Claim theorems. -/

/-- Claim C1, counterexample: with a valid extension and size, a successful
transcription ("I feel okay today") and a failing emotion classifier, the
analyze operation fails the overall call with the 500 emotion-detection
error, contradicting the claim that the response still contains the
transcribed text with neutral default mood fields. -/
theorem c1_analyze_classification_cx :
    analyze_voice (fun _ => none)
      { file_extension := ".wav", contentLen := 5000, save_to_mood := true,
        mood_date := none, user_id := "u1", today := "2026-01-01",
        transcription := .ok "I feel okay today", emotionOutcome := .error (),
        db := [], nextId := 1 } = .error .emotionDetectionFailed ∧
    voiceErrorStatus .emotionDetectionFailed = 500 := by
  exact ⟨by decide, rfl⟩

/-- Claim C1, amended: when transcription succeeds but the emotion
classifier raises, the analyze operation aborts the request with the 500
emotion-detection error (no neutral fallback, no mood mapping, no
persistence); the transcribe endpoint, by contrast, recovers locally and
returns the transcription with the emotion fields set to None (not the
neutral defaults). -/
theorem c1_analyze_classification_amended :
    (∀ (req : AnalyzeRequest) (pd : String → Option String) (t : String),
      req.file_extension ∈ ALLOWED_EXTENSIONS →
      req.contentLen ≤ MAX_FILE_SIZE →
      req.transcription = .ok t → pyStrip t ≠ "" →
      req.emotionOutcome = .error () →
      analyze_voice pd req = .error .emotionDetectionFailed) ∧
    (∀ (req : TranscribeRequest) (t : String),
      (if req.file_extension = "" then ".m4a" else req.file_extension) ∈ ALLOWED_EXTENSIONS →
      1000 ≤ req.contentLen → req.contentLen ≤ MAX_FILE_SIZE →
      req.transcription = .ok t → pyStrip t ≠ "" →
      req.emotionOutcome = .error () →
      transcribe_voice req =
        .ok ({ success := true, transcribed_text := t,
               language := req.language, emotion := .vnone, emotion_level := none,
               message := "Transcription completed successfully" } : TranscribeResponse)) := by
  constructor
  · intro req pd t h1 h2 h3 h4 h5
    simp only [analyze_voice, h3, h5]
    rw [if_neg (not_not_intro h1), if_neg (Nat.not_lt.mpr h2), if_neg h4]
  · intro req t h1 h2 h3 h4 h5 h6
    simp only [transcribe_voice, h4, h6]
    rw [if_neg (not_not_intro h1), if_neg (by omega), if_neg (by omega),
      if_neg (Nat.not_lt.mpr h3), if_neg h5]
    rfl

/-- Claim C1, witness: the amended theorem applied to one concrete analyze
request and one concrete transcribe request. -/
theorem c1_analyze_classification_amended_witness :
    analyze_voice (fun _ => none)
      { file_extension := ".mp3", contentLen := 2000, save_to_mood := false,
        mood_date := none, user_id := "u2", today := "2026-01-02",
        transcription := .ok "fine", emotionOutcome := .error (),
        db := [], nextId := 7 } = .error .emotionDetectionFailed ∧
    transcribe_voice
      { file_extension := ".mp3", contentLen := 2000, language := some "en",
        transcription := .ok "fine", emotionOutcome := .error () } =
      .ok ({ success := true, transcribed_text := "fine",
             language := some "en", emotion := .vnone, emotion_level := none,
             message := "Transcription completed successfully" } : TranscribeResponse) := by
  constructor
  · exact c1_analyze_classification_amended.1
      { file_extension := ".mp3", contentLen := 2000, save_to_mood := false,
        mood_date := none, user_id := "u2", today := "2026-01-02",
        transcription := .ok "fine", emotionOutcome := .error (),
        db := [], nextId := 7 }
      (fun _ => none) "fine" (by decide) (by decide) rfl (by decide) rfl
  · exact c1_analyze_classification_amended.2
      { file_extension := ".mp3", contentLen := 2000, language := some "en",
        transcription := .ok "fine", emotionOutcome := .error () }
      "fine" (by decide) (by decide) (by decide) rfl (by decide) rfl

/-- Claim C2, counterexample: a ProbabilityMap with an out-of-range
probability 2.0 yields confidence 2.0, outside [0.0, 1.0] — the source
passes the raw top probability through as `float(highest_prob)` without
clamping. -/
theorem c2_normalizer_ranges_cx :
    (format_emotion_result (.vdict [("happy", .vfloat (mkRat 2 1))])).toOption.map
        EmotionResult.confidence = some (.vfloat (mkRat 2 1)) ∧
    ¬ (mkRat 2 1 ≤ (1 : ℚ)) := by
  exact ⟨by decide, by decide⟩

/-- Claim C2, amended: `emotion_level` is always clamped into [1,10] — on
every probability-based input and on every LeveledLabel dispatch — but
`confidence` is clamped nowhere: on probability shapes it equals the raw
top probability, so it lies in [0.0,1.0] only when the input probabilities
do; on a LeveledLabel dispatch it is the clamped level over ten, which is
always in [0.0,1.0]. -/
theorem c2_normalizer_ranges_amended :
    (∀ (probs : List (PyVal × ℚ)) (raw : PyVal),
      ∃ n : ℤ, (format_probability_based_result probs raw).emotion_level = .vint n ∧
        1 ≤ n ∧ n ≤ 10) ∧
    (∀ (probs : List (PyVal × ℚ)) (raw : PyVal),
      (∀ p ∈ probs, 0 ≤ p.2 ∧ p.2 ≤ 1) →
      ∃ q : ℚ, (format_probability_based_result probs raw).confidence = .vfloat q ∧
        0 ≤ q ∧ q ≤ 1) ∧
    (∀ (kvs : List (String × PyVal)) (probs : List (PyVal × ℚ)),
      truthy (pyOrV (pyGet kvs "emotion")
        (pyOrV (pyGet kvs "emotion_title") (pyGet kvs "title"))) = false →
      pyGet kvs "emotions" = .vnone →
      dictNumProbs kvs = some probs →
      format_emotion_result (.vdict kvs) =
        .ok (format_probability_based_result probs (.vdict kvs))) ∧
    (∀ (kvs : List (String × PyVal)) (n : ℤ),
      truthy (pyOrV (pyGet kvs "emotion")
        (pyOrV (pyGet kvs "emotion_title") (pyGet kvs "title"))) = true →
      isNone (pyOrV (pyGet kvs "emotion_level")
        (pyOrV (pyGet kvs "level") (pyGet kvs "emotionLevel"))) = false →
      pyInt (pyOrV (pyGet kvs "emotion_level")
        (pyOrV (pyGet kvs "level") (pyGet kvs "emotionLevel"))) = some n →
      ∃ r : EmotionResult, format_emotion_result (.vdict kvs) = .ok r ∧
        r.emotion_level = .vint (clampInt 1 10 n) ∧
        1 ≤ clampInt 1 10 n ∧ clampInt 1 10 n ≤ 10 ∧
        r.confidence = .vfloat (mkRat (clampInt 1 10 n) 10) ∧
        0 ≤ mkRat (clampInt 1 10 n) 10 ∧ mkRat (clampInt 1 10 n) 10 ≤ 1) := by
  refine ⟨fpbr_emotion_level_bounds, fpbr_confidence_bounds, format_prob_map_branch, ?_⟩
  intro kvs n he hn hi
  obtain ⟨hb1, hb2⟩ := clampInt_bounds 1 10 n (by norm_num)
  obtain ⟨hq1, hq2⟩ := mkRat_div_ten_bounds (clampInt 1 10 n) hb1 hb2
  exact ⟨_, format_leveled_branch kvs n he hn hi, rfl, hb1, hb2, rfl, hq1, hq2⟩

/-- Claim C2, witness: the amended theorem applied at concrete inputs —
bounded probabilities give bounded confidence, and a concrete LeveledLabel
dict dispatches with clamped level and bounded confidence. -/
theorem c2_normalizer_ranges_amended_witness :
    (∃ q : ℚ, (format_probability_based_result
        [(.vstr "sad", mkRat 3 4)] .vnone).confidence = .vfloat q ∧
      0 ≤ q ∧ q ≤ 1) ∧
    (∃ r : EmotionResult,
      format_emotion_result (.vdict [("emotion", .vstr "joy"), ("level", .vint 8)]) = .ok r ∧
        r.emotion_level = .vint (clampInt 1 10 8) ∧
        1 ≤ clampInt 1 10 8 ∧ clampInt 1 10 8 ≤ 10 ∧
        r.confidence = .vfloat (mkRat (clampInt 1 10 8) 10) ∧
        0 ≤ mkRat (clampInt 1 10 8) 10 ∧ mkRat (clampInt 1 10 8) 10 ≤ 1) := by
  constructor
  · exact c2_normalizer_ranges_amended.2.1 [(.vstr "sad", mkRat 3 4)] .vnone
      (by intro p hp; simp at hp; rw [hp]; exact ⟨by decide, by decide⟩)
  · exact c2_normalizer_ranges_amended.2.2.2
      [("emotion", .vstr "joy"), ("level", .vint 8)] 8 (by decide) (by decide) (by decide)

/-- Claim C3, counterexample: the unrecognized input "garbage" (a bare
string) normalizes to the default fallback whose confidence is 0.5, not
the claimed 0.0. -/
theorem c3_neutral_default_cx :
    (format_emotion_result (.vstr "garbage")).toOption.map EmotionResult.confidence
      = some (.vfloat (mkRat 1 2)) ∧
    (mkRat 1 2 : ℚ) ≠ mkRat 0 1 := by
  exact ⟨by decide, by decide⟩

/-- Claim C3, amended: only the empty map normalizes to the exact neutral
default with confidence 0.0 (primary_emotion "neutral", emotion_level 5,
mood_level 3, empty emotions and tags); every other unrecognized input —
bare strings, ints, floats, None, the empty list, and a dict matching no
recognized shape — gets the default fallback with confidence 0.5 (and
emotion_level 5, mood_level 3). -/
theorem c3_neutral_default_amended :
    format_emotion_result (.vdict []) = .ok
      { emotion := .vstr "neutral", emotion_level := .vint 5, emotions := .vlist [],
        mood_level := .vint 3, confidence := .vfloat (mkRat 0 1), tags := .vlist [],
        raw_result := .vdict [] } ∧
    (∀ s, format_emotion_result (.vstr s) = .ok (defaultFallback (.vstr s))) ∧
    (∀ n : ℤ, format_emotion_result (.vint n) = .ok (defaultFallback (.vint n))) ∧
    (∀ q : ℚ, format_emotion_result (.vfloat q) = .ok (defaultFallback (.vfloat q))) ∧
    format_emotion_result .vnone = .ok (defaultFallback .vnone) ∧
    format_emotion_result (.vlist []) = .ok (defaultFallback (.vlist [])) ∧
    format_emotion_result (.vdict [("foo", .vstr "bar")]) =
      .ok (defaultFallback (.vdict [("foo", .vstr "bar")])) ∧
    (defaultFallback (.vdict [])).confidence = .vfloat (mkRat 1 2) ∧
    (defaultFallback (.vdict [])).emotion_level = .vint 5 ∧
    (defaultFallback (.vdict [])).mood_level = .vint 3 := by
  exact ⟨by decide, fun _ => rfl, fun _ => rfl, fun _ => rfl, rfl, rfl, by decide,
    rfl, rfl, rfl⟩

/-- Claim C4, counterexample: the LeveledLabel input with level 0 is not
clamped to 1 — the or-chain treats the falsy 0 as missing, the input falls
through to the neutral default (primary "neutral", level 5); and at level
8 the result carries the singleton emotions list ["joy"], not empty
alternates. -/
theorem c4_leveled_label_cx :
    (format_emotion_result (.vdict [("emotion", .vstr "joy"), ("level", .vint 0)])).toOption.map
        (fun r => (r.emotion, r.emotion_level)) = some (.vstr "neutral", .vint 5) ∧
    (format_emotion_result (.vdict [("emotion", .vstr "joy"), ("level", .vint 8)])).toOption.map
        EmotionResult.emotions = some (.vlist [.vstr "joy"]) := by
  exact ⟨by decide, by decide⟩

/-- Claim C4, amended: for every LeveledLabel input with a non-empty
emotion and a non-zero integer level, the level is clamped into 1..10,
confidence is the clamped level over ten, and emotions and tags are the
singleton list holding the emotion (a level of exactly 0 is falsy and is
treated as missing, so such an input falls through to other shapes); the
input with emotion "joy" and level 8 normalizes to primary "joy", level 8,
confidence 0.8, and mood_level 4. -/
theorem c4_leveled_label_amended :
    (format_emotion_result (.vdict [("emotion", .vstr "joy"), ("level", .vint 8)]) =
      .ok { emotion := .vstr "joy", emotion_level := .vint 8,
            emotions := .vlist [.vstr "joy"], mood_level := .vint 4,
            confidence := .vfloat (mkRat 8 10), tags := .vlist [.vstr "joy"],
            raw_result := .vdict [("emotion", .vstr "joy"), ("level", .vint 8)] }) ∧
    (∀ (e : String) (lv : ℤ), e ≠ "" → lv ≠ 0 →
      format_emotion_result (.vdict [("emotion", .vstr e), ("level", .vint lv)]) = .ok
        { emotion := .vstr e,
          emotion_level := .vint (clampInt 1 10 lv),
          emotions := .vlist [.vstr e],
          mood_level := .vint (convert_emotion_level_to_mood_level (clampInt 1 10 lv)),
          confidence := .vfloat (mkRat (clampInt 1 10 lv) 10),
          tags := .vlist [.vstr e],
          raw_result := .vdict [("emotion", .vstr e), ("level", .vint lv)] }) := by
  constructor
  · decide
  · intro e lv he hlv
    have hte : truthy (PyVal.vstr e) = true := by simp [truthy, he]
    have hE : pyOrV (pyGet [("emotion", .vstr e), ("level", .vint lv)] "emotion")
        (pyOrV (pyGet [("emotion", .vstr e), ("level", .vint lv)] "emotion_title")
          (pyGet [("emotion", .vstr e), ("level", .vint lv)] "title")) = .vstr e := by
      show pyOrV (.vstr e) (pyOrV .vnone .vnone) = .vstr e
      simp [pyOrV, hte]
    have hL : pyOrV (pyGet [("emotion", .vstr e), ("level", .vint lv)] "emotion_level")
        (pyOrV (pyGet [("emotion", .vstr e), ("level", .vint lv)] "level")
          (pyGet [("emotion", .vstr e), ("level", .vint lv)] "emotionLevel")) = .vint lv := by
      show pyOrV .vnone (pyOrV (.vint lv) .vnone) = .vint lv
      simp [pyOrV, truthy, hlv]
    have h1 := format_leveled_branch [("emotion", .vstr e), ("level", .vint lv)] lv
      (by rw [hE]; exact hte) (by rw [hL]; rfl) (by rw [hL]; rfl)
    rw [h1, hE]

/-- Claim C4, witness: the amended theorem's general part applied at
emotion "joy" and the out-of-range level 11, which is clamped to 10. -/
theorem c4_leveled_label_amended_witness :
    format_emotion_result (.vdict [("emotion", .vstr "joy"), ("level", .vint 11)]) = .ok
      { emotion := .vstr "joy",
        emotion_level := .vint (clampInt 1 10 11),
        emotions := .vlist [.vstr "joy"],
        mood_level := .vint (convert_emotion_level_to_mood_level (clampInt 1 10 11)),
        confidence := .vfloat (mkRat (clampInt 1 10 11) 10),
        tags := .vlist [.vstr "joy"],
        raw_result := .vdict [("emotion", .vstr "joy"), ("level", .vint 11)] } :=
  c4_leveled_label_amended.2 "joy" 11 (by decide) (by decide)

/-- Claim C5: the ProbabilityMap with sad 0.75, angry 0.15, neutral 0.10
normalizes to primary "sad", emotion_level 8 (round(7.5) = 8), confidence
0.75, mood_level 4, and both emotions and tags hold sad, angry and neutral
in descending order — neutral at exactly 0.10 clears the inclusive
threshold; when no entry reaches 0.1 the top three entries are used (shown
on a concrete four-entry map); the sort is descending by probability on
every input. -/
theorem c5_probability_map_example :
    format_emotion_result (.vdict [("sad", .vfloat (mkRat 3 4)),
        ("angry", .vfloat (mkRat 3 20)), ("neutral", .vfloat (mkRat 1 10))]) =
      .ok { emotion := .vstr "sad", emotion_level := .vint 8,
            emotions := .vlist [.vstr "sad", .vstr "angry", .vstr "neutral"],
            mood_level := .vint 4, confidence := .vfloat (mkRat 3 4),
            tags := .vlist [.vstr "sad", .vstr "angry", .vstr "neutral"],
            raw_result := .vdict [("sad", .vfloat (mkRat 3 4)),
              ("angry", .vfloat (mkRat 3 20)), ("neutral", .vfloat (mkRat 1 10))] } ∧
    (format_emotion_result (.vdict [("a", .vfloat (mkRat 5 100)),
        ("b", .vfloat (mkRat 4 100)), ("c", .vfloat (mkRat 3 100)),
        ("d", .vfloat (mkRat 2 100))])).toOption.map EmotionResult.emotions =
      some (.vlist [.vstr "a", .vstr "b", .vstr "c"]) ∧
    (∀ l : List (PyVal × ℚ),
      List.Sorted (fun a b : PyVal × ℚ => b.2 ≤ a.2) (sortProbsDesc l)) := by
  exact ⟨by decide, by decide, sorted_sortProbsDesc⟩

/-- Claim C6: the mood mapper is a total deterministic function whose
output always lies in 1..5, follows the fixed bucketing 1-2 to 1, 3-4 to
2, 5-6 to 3, 7-8 to 4, 9-10 to 5, and is monotone. -/
theorem c6_mood_mapper_buckets_monotone :
    (∀ l : ℤ, 1 ≤ convert_emotion_level_to_mood_level l ∧
      convert_emotion_level_to_mood_level l ≤ 5) ∧
    (convert_emotion_level_to_mood_level 1 = 1 ∧ convert_emotion_level_to_mood_level 2 = 1 ∧
     convert_emotion_level_to_mood_level 3 = 2 ∧ convert_emotion_level_to_mood_level 4 = 2 ∧
     convert_emotion_level_to_mood_level 5 = 3 ∧ convert_emotion_level_to_mood_level 6 = 3 ∧
     convert_emotion_level_to_mood_level 7 = 4 ∧ convert_emotion_level_to_mood_level 8 = 4 ∧
     convert_emotion_level_to_mood_level 9 = 5 ∧ convert_emotion_level_to_mood_level 10 = 5) ∧
    (∀ a b : ℤ, a < b →
      convert_emotion_level_to_mood_level a ≤ convert_emotion_level_to_mood_level b) := by
  exact ⟨convert_range,
    ⟨rfl, rfl, rfl, rfl, rfl, rfl, rfl, rfl, rfl, rfl⟩, convert_monotone⟩

/-- Claim C6, witness: the theorem applied at levels 7 and at the pair
3 < 7. -/
theorem c6_mood_mapper_buckets_monotone_witness :
    (1 ≤ convert_emotion_level_to_mood_level 7 ∧
      convert_emotion_level_to_mood_level 7 ≤ 5) ∧
    convert_emotion_level_to_mood_level 3 ≤ convert_emotion_level_to_mood_level 7 :=
  ⟨c6_mood_mapper_buckets_monotone.1 7,
   c6_mood_mapper_buckets_monotone.2.2 3 7 (by norm_num)⟩

/-- Claim C7: with at most one record for the (user, date) key, two
successive upserts leave exactly one record for the key, every record for
the key carries the second call's mood_level, tags and notes, the first
upsert creates the record when none exists (length grows by one), and the
second upsert never creates a second record (length unchanged). -/
theorem c7_upsert_last_write_wins (db : List Mood) (uid d : String)
    (ml1 ml2 : ℤ) (tg1 tg2 : Option String) (nt1 nt2 : String) (id1 id2 : ℕ)
    (hc : (db.filter (moodKeyMatch uid d)).length ≤ 1) :
    ((((upsertMood (upsertMood db uid d ml1 tg1 nt1 id1).2
        uid d ml2 tg2 nt2 id2).2).filter (moodKeyMatch uid d)).length = 1) ∧
    (∀ m ∈ (upsertMood (upsertMood db uid d ml1 tg1 nt1 id1).2
        uid d ml2 tg2 nt2 id2).2,
      moodKeyMatch uid d m = true →
      m.mood_level = ml2 ∧ m.tags = tg2 ∧ m.notes = some nt2) ∧
    ((db.filter (moodKeyMatch uid d)).length = 0 →
      ((upsertMood db uid d ml1 tg1 nt1 id1).2).length = db.length + 1) ∧
    (((upsertMood (upsertMood db uid d ml1 tg1 nt1 id1).2
        uid d ml2 tg2 nt2 id2).2).length =
      ((upsertMood db uid d ml1 tg1 nt1 id1).2).length) := by
  have h1 : (((upsertMood db uid d ml1 tg1 nt1 id1).2).filter
      (moodKeyMatch uid d)).length = 1 :=
    upsertMood_count_one db uid d ml1 tg1 nt1 id1 hc
  refine ⟨?_, ?_, ?_, ?_⟩
  · exact upsertMood_count_one _ uid d ml2 tg2 nt2 id2 (le_of_eq h1)
  · exact upsertMood_matches_values _ uid d ml2 tg2 nt2 id2 (le_of_eq h1)
  · intro hz
    exact upsertMood_length_new db uid d ml1 tg1 nt1 id1 hz
  · exact upsertMood_length_existing _ uid d ml2 tg2 nt2 id2 (le_of_eq h1.symm)

/-- Claim C7, witness: the theorem applied to the empty table — double
upsert for one key yields a table with exactly one record for the key, the
first upsert created it, and the second did not add another. -/
theorem c7_upsert_last_write_wins_witness :
    ((((upsertMood (upsertMood [] "u" "2026-01-01" 4 (some "joy") "hello" 1).2
        "u" "2026-01-01" 2 (some "sad") "bye" 2).2).filter
        (moodKeyMatch "u" "2026-01-01")).length = 1) ∧
    (((upsertMood [] "u" "2026-01-01" 4 (some "joy") "hello" 1).2).length =
      ([] : List Mood).length + 1) ∧
    (((upsertMood (upsertMood [] "u" "2026-01-01" 4 (some "joy") "hello" 1).2
        "u" "2026-01-01" 2 (some "sad") "bye" 2).2).length =
      ((upsertMood [] "u" "2026-01-01" 4 (some "joy") "hello" 1).2).length) := by
  have h := c7_upsert_last_write_wins [] "u" "2026-01-01" 4 2 (some "joy") (some "sad")
    "hello" "bye" 1 2 (by decide)
  exact ⟨h.1, h.2.2.1 (by decide), h.2.2.2⟩

/-- Claim C8, counterexample: a 500-byte (and even a 0-byte) upload to the
analyze endpoint is not rejected by any size floor — the request proceeds
past validation to the transcription step and completes successfully,
contradicting the claim that payloads below about 1 KB are rejected before
any decode attempt at both voice endpoints. -/
theorem c8_size_floor_cx :
    analyze_voice (fun _ => none)
      { file_extension := ".wav", contentLen := 500, save_to_mood := false,
        mood_date := none, user_id := "u1", today := "2026-01-01",
        transcription := .ok "hello there",
        emotionOutcome := .ok (.vdict [("emotion", .vstr "joy"), ("level", .vint 8)]),
        db := [], nextId := 1 } =
      .ok (({ success := true, transcribed_text := "hello there", emotion := .vstr "joy",
              emotion_level := 8, emotions := .vlist [.vstr "joy"], mood_level := 4,
              confidence := .vfloat (mkRat 8 10), tags := .vlist [.vstr "joy"],
              mood_entry := none,
              message := "Voice analysis completed successfully" } : AnalyzeResponse), []) ∧
    analyze_voice (fun _ => none)
      { file_extension := ".wav", contentLen := 0, save_to_mood := false,
        mood_date := none, user_id := "u1", today := "2026-01-01",
        transcription := .ok "hello there",
        emotionOutcome := .ok (.vdict [("emotion", .vstr "joy"), ("level", .vint 8)]),
        db := [], nextId := 1 } =
      .ok (({ success := true, transcribed_text := "hello there", emotion := .vstr "joy",
              emotion_level := 8, emotions := .vlist [.vstr "joy"], mood_level := 4,
              confidence := .vfloat (mkRat 8 10), tags := .vlist [.vstr "joy"],
              mood_entry := none,
              message := "Voice analysis completed successfully" } : AnalyzeResponse), []) := by
  exact ⟨by decide, by decide⟩

/-- Claim C8, amended: the transcribe endpoint rejects uploads below 1000
bytes with the size-floor error and uploads above the 25 MB cap with the
size-cap error, and the analyze endpoint rejects uploads above the 25 MB
cap — all before the transcription stage (the result is independent of the
transcription outcome, over which these statements quantify) — but the
analyze endpoint has no minimum-size check: it never returns a size-floor
error on any input. -/
theorem c8_size_checks_amended :
    (∀ req : TranscribeRequest,
      (if req.file_extension = "" then ".m4a" else req.file_extension) ∈ ALLOWED_EXTENSIONS →
      req.contentLen < 1000 → transcribe_voice req = .error .audioTooSmall) ∧
    (∀ req : TranscribeRequest,
      (if req.file_extension = "" then ".m4a" else req.file_extension) ∈ ALLOWED_EXTENSIONS →
      MAX_FILE_SIZE < req.contentLen → transcribe_voice req = .error .fileTooLarge) ∧
    (∀ (pd : String → Option String) (req : AnalyzeRequest),
      req.file_extension ∈ ALLOWED_EXTENSIONS →
      MAX_FILE_SIZE < req.contentLen → analyze_voice pd req = .error .fileTooLarge) ∧
    (∀ (pd : String → Option String) (req : AnalyzeRequest) (e : VoiceError),
      analyze_voice pd req = .error e → e ≠ .audioTooSmall ∧ e ≠ .audioEmpty) := by
  refine ⟨?_, ?_, ?_, ?_⟩
  · intro req h1 h2
    simp only [transcribe_voice]
    rw [if_neg (not_not_intro h1), if_pos h2]
  · intro req h1 h2
    have h3 : (1000 : ℕ) ≤ MAX_FILE_SIZE := by norm_num [MAX_FILE_SIZE]
    simp only [transcribe_voice]
    rw [if_neg (not_not_intro h1), if_neg (by omega), if_neg (by omega), if_pos h2]
  · intro pd req h1 h2
    simp only [analyze_voice]
    rw [if_neg (not_not_intro h1), if_pos h2]
  · intro pd req e h
    simp only [analyze_voice] at h
    repeat' split at h
    all_goals try cases h
    all_goals try decide
    all_goals rename_i heq2
    all_goals repeat' split at heq2
    all_goals try cases heq2
    all_goals decide

/-- Claim C8, witness: the amended theorem applied at concrete requests —
a 500-byte transcribe upload is rejected as too small, 26 MB uploads are
rejected as too large at both endpoints, and a concrete analyze error is
not a size-floor error. -/
theorem c8_size_checks_amended_witness :
    transcribe_voice
      { file_extension := ".wav", contentLen := 500, language := none,
        transcription := .error "unused", emotionOutcome := .error () } =
      .error .audioTooSmall ∧
    transcribe_voice
      { file_extension := ".wav", contentLen := 26 * 1024 * 1024, language := none,
        transcription := .error "unused", emotionOutcome := .error () } =
      .error .fileTooLarge ∧
    analyze_voice (fun _ => none)
      { file_extension := ".wav", contentLen := 26 * 1024 * 1024, save_to_mood := false,
        mood_date := none, user_id := "u1", today := "2026-01-01",
        transcription := .error "unused", emotionOutcome := .error (),
        db := [], nextId := 1 } = .error .fileTooLarge ∧
    (VoiceError.transcriptionFailed ≠ VoiceError.audioTooSmall ∧
      VoiceError.transcriptionFailed ≠ VoiceError.audioEmpty) := by
  refine ⟨?_, ?_, ?_, ?_⟩
  · exact c8_size_checks_amended.1
      { file_extension := ".wav", contentLen := 500, language := none,
        transcription := .error "unused", emotionOutcome := .error () }
      (by decide) (by decide)
  · exact c8_size_checks_amended.2.1
      { file_extension := ".wav", contentLen := 26 * 1024 * 1024, language := none,
        transcription := .error "unused", emotionOutcome := .error () }
      (by decide) (by decide)
  · exact c8_size_checks_amended.2.2.1 (fun _ => none)
      { file_extension := ".wav", contentLen := 26 * 1024 * 1024, save_to_mood := false,
        mood_date := none, user_id := "u1", today := "2026-01-01",
        transcription := .error "unused", emotionOutcome := .error (),
        db := [], nextId := 1 }
      (by decide) (by decide)
  · exact c8_size_checks_amended.2.2.2 (fun _ => none)
      { file_extension := ".wav", contentLen := 5000, save_to_mood := false,
        mood_date := none, user_id := "u1", today := "2026-01-01",
        transcription := .error "boom", emotionOutcome := .error (),
        db := [], nextId := 1 }
      VoiceError.transcriptionFailed (by decide)

/-- Claim C9, counterexample: the check-then-load code has no lock; under
the interleaved schedule where both requests pass the cache check before
either load completes, the model is loaded twice, contradicting the claim
that a mutual-exclusion guard ensures at most one load under concurrent
first use. -/
theorem c9_single_load_cx :
    (whisperRun [true, false, true, false] whisperInit).loads = 2 ∧
    whisperInit.cached = false := by
  exact ⟨by decide, rfl⟩

/-- Claim C9, amended: the source has no mutual-exclusion guard — the
cache check and the awaited load-and-publish are separated by a suspension
point, so an interleaved first use can load the model twice (never more
than twice with two requests); when the two first uses do not interleave,
the model is loaded exactly once, and once the cache is set (with no load
in flight) no later scheduling performs any further load — reads are
lock-free reuse. -/
theorem c9_cache_behavior_amended :
    (whisperRun [true, true, false, false] whisperInit).loads = 1 ∧
    (whisperRun [false, false, true, true] whisperInit).loads = 1 ∧
    (∀ sched : List Bool, (whisperRun sched whisperInit).loads ≤ 2) ∧
    (∀ (sched : List Bool) (s : WhisperState), s.cached = true →
      s.pc1 ≠ .loading → s.pc2 ≠ .loading →
      (whisperRun sched s).loads = s.loads ∧ (whisperRun sched s).cached = true) := by
  refine ⟨by decide, by decide, ?_, whisperRun_cached_stable⟩
  intro sched
  have h := whisperRun_potential sched whisperInit
  have h2 : whisperInit.loads + pcPotential whisperInit.pc1 +
      pcPotential whisperInit.pc2 = 2 := rfl
  omega

/-- Claim C9, witness: the amended theorem's cache-stability part applied
at a concrete cached state and schedule. -/
theorem c9_cache_behavior_amended_witness :
    (whisperRun [true, false, true]
      { cached := true, loads := 1, pc1 := .beforeCheck, pc2 := .finished }).loads = 1 ∧
    (whisperRun [true, false, true]
      { cached := true, loads := 1, pc1 := .beforeCheck, pc2 := .finished }).cached = true :=
  c9_cache_behavior_amended.2.2.2 [true, false, true]
    { cached := true, loads := 1, pc1 := .beforeCheck, pc2 := .finished }
    rfl (by decide) (by decide)

/-- Claim C10: whenever the analyze operation returns a successful
response, its emotion_level lies in 1..10 and its mood_level in 1..5 —
whatever integers the emotion-detection step carried, including
out-of-range values from the pass-through branch — while confidence is
passed through from the emotion result with no re-clamping. -/
theorem c10_route_boundary_clamps (pd : String → Option String)
    (req : AnalyzeRequest) (resp : AnalyzeResponse) (dbAfter : List Mood)
    (h : analyze_voice pd req = .ok (resp, dbAfter)) :
    (1 ≤ resp.emotion_level ∧ resp.emotion_level ≤ 10 ∧
     1 ≤ resp.mood_level ∧ resp.mood_level ≤ 5) ∧
    (∀ raw er, req.emotionOutcome = .ok raw → format_emotion_result raw = .ok er →
      resp.confidence = er.confidence) := by
  simp only [analyze_voice] at h
  repeat' split at h
  all_goals try cases h
  all_goals
    refine ⟨⟨(clampInt_bounds 1 10 _ (by norm_num)).1, (clampInt_bounds 1 10 _ (by norm_num)).2,
      (clampInt_bounds 1 5 _ (by norm_num)).1, (clampInt_bounds 1 5 _ (by norm_num)).2⟩, ?_⟩
  all_goals
    intro raw er h1 h2
    simp_all

/-- Claim C10, witness: the theorem applied to a concrete request whose
classifier output uses the pass-through branch with out-of-range fields
(emotion_level 99, mood_level 77, confidence 3.0) — the response clamps
the levels to 10 and 5 and passes confidence 3.0 through. -/
theorem c10_route_boundary_clamps_witness :
    (1 ≤ ({ success := true, transcribed_text := "I feel fine", emotion := .vstr "",
            emotion_level := 10, emotions := .vlist [.vstr "x"], mood_level := 5,
            confidence := .vfloat (mkRat 3 1), tags := .vlist [],
            mood_entry := none,
            message := "Voice analysis completed successfully" } : AnalyzeResponse).emotion_level) ∧
    (({ success := true, transcribed_text := "I feel fine", emotion := .vstr "",
        emotion_level := 10, emotions := .vlist [.vstr "x"], mood_level := 5,
        confidence := .vfloat (mkRat 3 1), tags := .vlist [],
        mood_entry := none,
        message := "Voice analysis completed successfully" } : AnalyzeResponse).confidence =
      ({ emotion := .vstr "", emotion_level := .vint 99,
         emotions := .vlist [.vstr "x"], mood_level := .vint 77,
         confidence := .vfloat (mkRat 3 1), tags := .vlist [],
         raw_result := .vdict [("emotions", .vlist [.vstr "x"]), ("emotion_level", .vint 99),
           ("mood_level", .vint 77), ("confidence", .vfloat (mkRat 3 1))] } :
        EmotionResult).confidence) := by
  have h := c10_route_boundary_clamps (fun _ => none)
    { file_extension := ".wav", contentLen := 5000, save_to_mood := false,
      mood_date := none, user_id := "u1", today := "2026-01-01",
      transcription := .ok "I feel fine", emotionOutcome := .ok (.vdict
        [("emotions", .vlist [.vstr "x"]), ("emotion_level", .vint 99),
         ("mood_level", .vint 77), ("confidence", .vfloat (mkRat 3 1))]),
      db := [], nextId := 1 }
    { success := true, transcribed_text := "I feel fine", emotion := .vstr "",
      emotion_level := 10, emotions := .vlist [.vstr "x"], mood_level := 5,
      confidence := .vfloat (mkRat 3 1), tags := .vlist [],
      mood_entry := none,
      message := "Voice analysis completed successfully" }
    [] (by decide)
  exact ⟨h.1.1, h.2 (.vdict [("emotions", .vlist [.vstr "x"]), ("emotion_level", .vint 99),
    ("mood_level", .vint 77), ("confidence", .vfloat (mkRat 3 1))])
    { emotion := .vstr "", emotion_level := .vint 99,
      emotions := .vlist [.vstr "x"], mood_level := .vint 77,
      confidence := .vfloat (mkRat 3 1), tags := .vlist [],
      raw_result := .vdict [("emotions", .vlist [.vstr "x"]), ("emotion_level", .vint 99),
        ("mood_level", .vint 77), ("confidence", .vfloat (mkRat 3 1))] }
    rfl (by decide)⟩

end Moodmate
